import Mathlib

/-!
Verification development for the `generate_icons.py` SVG-to-VectorDrawable
generator.  The Python source is shallowly embedded below: the regex scans are
modelled as executable character-list scanners that implement the exact
leftmost, non-overlapping, lazy/greedy semantics of the patterns used by the
source, and Python `float` values are modelled as exact decimal numbers
(a mantissa/power-of-ten pair) together with signed infinities and NaN.
Idealizations of the model, each noted at the relevant definition:
binary64 rounding and overflow are replaced by exact decimal arithmetic,
`str()` of a float never switches to exponent notation, and `str.lower` is
ASCII-only.  All claims settled here are insensitive to these
idealizations.  Fallible Python code (float parsing failures, list index
errors) is modelled with `Except`.
-/

/-- Errors the Python script can raise while converting one icon:
`ValueError` from `float(...)` on a non-numeric string, and `IndexError`
from `clean_points[i+1]` past the end of the list. -/
inductive PyErr where
  | valueError
  | indexError
deriving DecidableEq

/-- The 26 ASCII uppercase letters, the character class `[A-Z]`. -/
def upperChars : List Char :=
  ['A', 'B', 'C', 'D', 'E', 'F', 'G', 'H', 'I', 'J', 'K', 'L', 'M',
   'N', 'O', 'P', 'Q', 'R', 'S', 'T', 'U', 'V', 'W', 'X', 'Y', 'Z']

/-- The 26 ASCII lowercase letters, the character class `[a-z]`. -/
def lowerLetters : List Char :=
  ['a', 'b', 'c', 'd', 'e', 'f', 'g', 'h', 'i', 'j', 'k', 'l', 'm',
   'n', 'o', 'p', 'q', 'r', 's', 't', 'u', 'v', 'w', 'x', 'y', 'z']

/-- The ten decimal digits, the character class `[0-9]`. -/
def digitChars : List Char :=
  ['0', '1', '2', '3', '4', '5', '6', '7', '8', '9']

/-- Membership test for `[A-Z]`. -/
def upperB (c : Char) : Bool := c ∈ upperChars

/-- Membership test for `[a-z]`. -/
def lowerB (c : Char) : Bool := c ∈ lowerLetters

/-- Membership test for `[0-9]`. -/
def digitB (c : Char) : Bool := c ∈ digitChars

/-- Membership test for `[a-z0-9]`, the first group of the second
`to_snake_case` substitution. -/
def lowdB (c : Char) : Bool := lowerB c || digitB c

/-- Membership test for `\w` (ASCII part: letters, digits, underscore). -/
def wordB (c : Char) : Bool := upperB c || lowerB c || digitB c || c = '_'

/-- Membership test for `\s` (the ASCII whitespace Python uses for `\s`,
`str.split()` and `str.strip()`). -/
def wsB (c : Char) : Bool :=
  c = ' ' || c = '\t' || c = '\n' || c = '\x0b' || c = '\x0c' || c = '\r'

/-- ASCII lowercasing of one character, the effect of Python `str.lower()`
on the characters the generator manipulates (non-ASCII uppercase is
idealized as unchanged). -/
def lowerChar (c : Char) : Char :=
  match c with
  | 'A' => 'a' | 'B' => 'b' | 'C' => 'c' | 'D' => 'd' | 'E' => 'e'
  | 'F' => 'f' | 'G' => 'g' | 'H' => 'h' | 'I' => 'i' | 'J' => 'j'
  | 'K' => 'k' | 'L' => 'l' | 'M' => 'm' | 'N' => 'n' | 'O' => 'o'
  | 'P' => 'p' | 'Q' => 'q' | 'R' => 'r' | 'S' => 's' | 'T' => 't'
  | 'U' => 'u' | 'V' => 'v' | 'W' => 'w' | 'X' => 'x' | 'Y' => 'y'
  | 'Z' => 'z'
  | other => other

/-- Longest prefix of `l` whose characters satisfy `p`, paired with the rest;
the effect of a greedy character-class repetition in a regex. -/
def spanP (p : Char → Bool) : List Char → List Char × List Char
  | [] => ([], [])
  | c :: rest =>
    if p c then
      let s := spanP p rest
      (c :: s.1, s.2)
    else ([], c :: rest)

/-- One fueled pass of `re.sub('(.)([A-Z][a-z]+)', r'\1_\2', name)`:
leftmost non-overlapping matches, `(.)` matching any character except a
newline, the `[a-z]+` run taken greedily, and scanning resuming after each
match.  Fuel `l.length` always suffices; on fuel exhaustion the remaining
characters are returned unchanged. -/
def sub1F : Nat → List Char → List Char
  | 0, l => l
  | _ + 1, [] => []
  | n + 1, c1 :: rest =>
    match rest with
    | c2 :: c3 :: rest2 =>
      if c1 ≠ '\n' && upperB c2 && lowerB c3 then
        let s := spanP lowerB rest2
        c1 :: '_' :: c2 :: c3 :: (s.1 ++ sub1F n s.2)
      else c1 :: sub1F n rest
    | _ => c1 :: sub1F n rest

/-- One fueled pass of `re.sub('([a-z0-9])([A-Z])', r'\1_\2', s1)`:
leftmost non-overlapping matches, scanning resuming after each match. -/
def sub2F : Nat → List Char → List Char
  | 0, l => l
  | _ + 1, [] => []
  | _ + 1, [c] => [c]
  | n + 1, c1 :: c2 :: rest =>
    if lowdB c1 && upperB c2 then c1 :: '_' :: c2 :: sub2F n rest
    else c1 :: sub2F n (c2 :: rest)

/-- `to_snake_case` from the source: two regex substitutions followed by
`.lower()`. -/
def to_snake_case (name : String) : String :=
  let s1 := sub1F name.data.length name.data
  let s2 := sub2F s1.length s1
  ⟨s2.map lowerChar⟩

/-- Boolean test that `pat` is a prefix of `l`. -/
def startsWith : List Char → List Char → Bool
  | [], _ => true
  | _ :: _, [] => false
  | p :: ps, c :: cs => p = c && startsWith ps cs

/-- Splits `l` at the first occurrence of `pat`: returns the part before the
occurrence and the part after it.  This is the semantics of a lazy `.*?`
bounded by the literal `pat` (with DOTALL, so newlines are allowed). -/
def firstSplit (pat : List Char) : List Char → Option (List Char × List Char)
  | [] => if pat.isEmpty then some ([], []) else none
  | c :: rest =>
    if startsWith pat (c :: rest) then some ([], (c :: rest).drop pat.length)
    else
      match firstSplit pat rest with
      | some (b, a) => some (c :: b, a)
      | none => none

/-- Splits `l` at the last occurrence of `pat`: the semantics of a greedy
`(.*)` bounded by the literal `pat` under DOTALL.  Fueled; each recursion
consumes at least one character, so fuel `l.length + 1` suffices. -/
def lastSplitF (pat : List Char) : Nat → List Char → Option (List Char × List Char)
  | 0, _ => none
  | n + 1, l =>
    match firstSplit pat l with
    | none => none
    | some (b, a) =>
      match lastSplitF pat n a with
      | none => some (b, a)
      | some (b2, a2) => some (b ++ pat ++ b2, a2)

/-- The group of `re.search(r'<svg.*?>(.*)</svg>', svg, re.DOTALL)`:
everything between the first `>` following the first `<svg` and the last
`</svg>` after it.  (The lazy `.*?` picks the first `>`; the greedy `(.*)`
picks the last `</svg>`; if either is missing no later starting position can
succeed, so the search fails.) -/
def svgInner (l : List Char) : Option (List Char) :=
  match firstSplit "<svg".data l with
  | none => none
  | some (_, afterSvg) =>
    match firstSplit ['>'] afterSvg with
    | none => none
    | some (_, afterGt) =>
      match lastSplitF "</svg>".data (afterGt.length + 1) afterGt with
      | none => none
      | some (inner, _) => some inner

/-- Attempts to match `\s*/?>` at the head of `l` (the closing part of the
tag pattern): skips the maximal whitespace run, accepts `>` or `/>`, and
returns the characters after the `>`. -/
def closes (l : List Char) : Option (List Char) :=
  match l.dropWhile wsB with
  | '/' :: '>' :: r => some r
  | '>' :: r => some r
  | _ => none

/-- Lazy search for the end of the attribute group in
`<(\w+)\s+(.*?)\s*/?>`: finds the smallest prefix `g` (which, matching `.`
without DOTALL, may not contain a newline) such that the remainder matches
`\s*/?>`; returns `g` and the characters after the `>`. -/
def findClose : List Char → Option (List Char × List Char)
  | [] => none
  | c :: cs =>
    match closes (c :: cs) with
    | some r => some ([], r)
    | none =>
      if c = '\n' then none
      else
        match findClose cs with
        | some (g, r) => some (c :: g, r)
        | none => none

/-- Attempts to match `(\w+)\s+(.*?)\s*/?>` at the head of `l` (the part of
the tag pattern after `<`): a nonempty word run, a nonempty whitespace run,
then the attribute group.  Returns the tag name, the attribute text and the
rest of the input after the match. -/
def tryTag (l : List Char) : Option (String × String × List Char) :=
  let sName := spanP wordB l
  if sName.1.isEmpty then none
  else
    let sWs := spanP wsB sName.2
    if sWs.1.isEmpty then none
    else
      match findClose sWs.2 with
      | some (g, rest) => some (⟨sName.1⟩, ⟨g⟩, rest)
      | none => none

/-- Fueled scan of `re.findall(r'<(\w+)\s+(.*?)\s*/?>', content)`: at each
position a match is attempted; on success scanning resumes after the match,
on failure at the next character.  Fuel `l.length` suffices since every step
consumes at least one character. -/
def findTagsF : Nat → List Char → List (String × String)
  | 0, _ => []
  | _ + 1, [] => []
  | n + 1, c :: rest =>
    if c = '<' then
      match tryTag rest with
      | some (name, attrs, rest2) => (name, attrs) :: findTagsF n rest2
      | none => findTagsF n rest
    else findTagsF n rest

/-- All shape tags of an SVG fragment, in document order. -/
def findTags (l : List Char) : List (String × String) := findTagsF l.length l

/-- Fueled scan of `re.findall(r'(\w+)="([^"]*)"', attrs)`: a greedy word
run, the literal `="`, a greedy quote-free run, the closing quote.  On
failure scanning advances one character. -/
def findAttrsF : Nat → List Char → List (String × String)
  | 0, _ => []
  | _ + 1, [] => []
  | n + 1, c :: rest =>
    if wordB c then
      let sW := spanP wordB (c :: rest)
      match sW.2 with
      | '=' :: '"' :: r2 =>
        let sV := spanP (fun ch => ch ≠ '"') r2
        match sV.2 with
        | '"' :: r4 => (⟨sW.1⟩, ⟨sV.1⟩) :: findAttrsF n r4
        | _ => findAttrsF n rest
      | _ => findAttrsF n rest
    else findAttrsF n rest

/-- The attribute list of one tag, in source order. -/
def findAttrs (attrStr : String) : List (String × String) :=
  findAttrsF attrStr.data.length attrStr.data

/-- `attr_dict.get(k, dflt)` for the dict built by inserting the pairs in
order: the value of the last pair whose key is `k`, or the default. -/
def dictGet : List (String × String) → String → String → String
  | [], _, dflt => dflt
  | (k1, v) :: rest, k, dflt => dictGet rest k (if k1 = k then v else dflt)

/-- Accumulator pass for Python `str.split()` (split on whitespace runs,
dropping empty pieces). -/
def splitWsAux : List Char → List Char → List (List Char)
  | [], acc => if acc.isEmpty then [] else [acc.reverse]
  | c :: rest, acc =>
    if wsB c then
      if acc.isEmpty then splitWsAux rest []
      else acc.reverse :: splitWsAux rest []
    else splitWsAux rest (c :: acc)

/-- Python `str.split()` on a character list. -/
def splitWsL (l : List Char) : List (List Char) := splitWsAux l []

/-- `points.replace(',', ' ').split()`: the normalized coordinate tokens of
a `polyline`/`polygon` points attribute. -/
def cleanTokens (points : String) : List String :=
  (splitWsL (points.data.map fun c => if c = ',' then ' ' else c)).map
    fun t => ⟨t⟩

/-- Exact decimal number `man * 10 ^ exp`; the model of a finite Python
float.  Arithmetic on these is exact where binary64 rounds, an idealization
that is invisible on the inputs the claims exercise. -/
structure Dec where
  man : Int
  exp : Int
deriving DecidableEq

/-- Addition of decimals by aligning exponents. -/
def decAdd (a b : Dec) : Dec :=
  let e := min a.exp b.exp
  ⟨a.man * (10 : Int) ^ (a.exp - e).toNat + b.man * (10 : Int) ^ (b.exp - e).toNat, e⟩

/-- Negation of a decimal. -/
def decNeg (a : Dec) : Dec := ⟨-a.man, a.exp⟩

/-- The model of a Python float value: a finite decimal (an unsigned zero
when `man = 0`), the negative zero, a signed infinity, or NaN. -/
inductive PyF where
  | fin (d : Dec)
  | negZero
  | inf (neg : Bool)
  | nan
deriving DecidableEq

/-- Negation of a Python float (negating a positive zero gives `-0.0`). -/
def pyNeg : PyF → PyF
  | .fin d => if d.man = 0 then .negZero else .fin (decNeg d)
  | .negZero => .fin ⟨0, 0⟩
  | .inf b => .inf (!b)
  | .nan => .nan

/-- Addition of Python floats (NaN absorbs; opposite infinities give NaN;
`-0.0` is the identity except on itself, following IEEE rules). -/
def pyAdd : PyF → PyF → PyF
  | .nan, _ => .nan
  | _, .nan => .nan
  | .negZero, .negZero => .negZero
  | .negZero, b => b
  | a, .negZero => a
  | .inf b, .inf b2 => if b = b2 then .inf b else .nan
  | .inf b, .fin _ => .inf b
  | .fin _, .inf b => .inf b
  | .fin a, .fin b => .fin (decAdd a b)

/-- Subtraction of Python floats. -/
def pySub (a b : PyF) : PyF := pyAdd a (pyNeg b)

/-- The test `v == 0` on a Python float (true for both zeros). -/
def pyIsZero : PyF → Bool
  | .fin d => d.man = 0
  | .negZero => true
  | _ => false

/-- Consumes a digit run in which single underscores may separate digits
(the Python numeric-literal rule); returns the digits with underscores
removed and the rest of the input, or `none` if no leading digit. -/
def digitsU : List Char → Option (List Char × List Char)
  | c :: rest => if digitB c then some (digitsUGo [c] rest) else none
  | [] => none
where
  /-- Collects further digits, allowing `_` only between two digits. -/
  digitsUGo : List Char → List Char → List Char × List Char
    | acc, '_' :: d :: r =>
      if digitB d then digitsUGo (acc ++ [d]) r else (acc, '_' :: d :: r)
    | acc, d :: r => if digitB d then digitsUGo (acc ++ [d]) r else (acc, d :: r)
    | acc, [] => (acc, [])

/-- Numeric value of a list of decimal digits. -/
def digitsVal (l : List Char) : Nat :=
  l.foldl (fun a c => 10 * a + (c.toNat - 48)) 0

/-- Parses the optional exponent part `([eE][+-]?digits)?` at the end of a
float literal; the whole remainder must be consumed. -/
def parseExp : List Char → Option Int
  | [] => some 0
  | e :: rest =>
    if e = 'e' || e = 'E' then
      match rest with
      | '+' :: r =>
        match digitsU r with
        | some (ds, []) => some (digitsVal ds : Int)
        | _ => none
      | '-' :: r =>
        match digitsU r with
        | some (ds, []) => some (-(digitsVal ds : Int))
        | _ => none
      | r =>
        match digitsU r with
        | some (ds, []) => some (digitsVal ds : Int)
        | _ => none
    else none

/-- Builds the float value of a parsed decimal literal from the sign, the
digits value and the power-of-ten exponent; a negative sign on a zero
mantissa gives `-0.0`. -/
def mkFin (neg : Bool) (m : Nat) (e : Int) : PyF :=
  if m = 0 && neg then .negZero
  else .fin ⟨if neg then -(m : Int) else (m : Int), e⟩

/-- Parses the body of a float literal after the optional sign:
`digits [. [digits]] [exp]` or `. digits [exp]`. -/
def parseBody (neg : Bool) (l : List Char) : Option PyF :=
  match l with
  | '.' :: r =>
    match digitsU r with
    | some (fr, rest) =>
      match parseExp rest with
      | some e => some (mkFin neg (digitsVal fr) (e - fr.length))
      | none => none
    | none => none
  | _ =>
    match digitsU l with
    | some (ip, rest) =>
      match rest with
      | '.' :: r2 =>
        match digitsU r2 with
        | some (fr, rest2) =>
          match parseExp rest2 with
          | some e => some (mkFin neg (digitsVal (ip ++ fr)) (e - fr.length))
          | none => none
        | none =>
          match parseExp r2 with
          | some e => some (mkFin neg (digitsVal ip) e)
          | none => none
      | _ =>
        match parseExp rest with
        | some e => some (mkFin neg (digitsVal ip) e)
        | none => none
    | none => none

/-- Python `float(s)`: strips surrounding whitespace, takes an optional
sign, and accepts either a decimal literal or (case-insensitively) the
special spellings `inf`, `infinity`, `nan`.  Returns `none` exactly when
Python raises `ValueError`. -/
def parseFloat (s : String) : Option PyF :=
  let t := ((s.data.dropWhile wsB).reverse.dropWhile wsB).reverse
  let core :=
    match t with
    | '+' :: r => (false, r)
    | '-' :: r => (true, r)
    | r => (false, r)
  let low := core.2.map lowerChar
  if low = "inf".data || low = "infinity".data then some (.inf core.1)
  else if low = "nan".data then some PyF.nan
  else parseBody core.1 core.2

/-- Strips factors of ten from a nonzero mantissa, moving them into the
exponent; fueled by the mantissa itself (enough since each step divides
by ten). -/
def stripTens : Nat → Nat → Int → Nat × Int
  | 0, m, e => (m, e)
  | f + 1, m, e => if m % 10 = 0 && m ≠ 0 then stripTens f (m / 10) (e + 1) else (m, e)

/-- Decimal rendering of `Dec`, the model of Python `str()` on a finite
float: minimal digits with at least one fractional digit (`2.0`, `12.01`).
Exponent notation for very large or very small magnitudes is not modelled;
the generator never produces such values. -/
def decStr (d : Dec) : String :=
  if d.man = 0 then "0.0"
  else
    let n0 := d.man.natAbs
    let s := stripTens n0 n0 d.exp
    let sign := if d.man < 0 then "-" else ""
    if 0 ≤ s.2 then sign ++ toString (s.1 * 10 ^ s.2.toNat) ++ ".0"
    else
      let k := (-s.2).toNat
      let ip := s.1 / 10 ^ k
      let fr := s.1 % 10 ^ k
      let frDigits := toString fr
      let padded := ⟨List.replicate (k - frDigits.data.length) '0'⟩ ++ frDigits
      sign ++ toString ip ++ "." ++ padded

/-- Python `str()` of a float value. -/
def pyStr : PyF → String
  | .fin d => decStr d
  | .negZero => "-0.0"
  | .inf false => "inf"
  | .inf true => "-inf"
  | .nan => "nan"

/-- The `for i in range(2, len(clean_points), 2)` loop of the
`polyline`/`polygon` branches, applied to the tokens after the first two:
consumes the tokens two at a time, building `" L x y"` segments, and raises
`IndexError` via `clean_points[i+1]` when a token is left without a
partner. -/
def lSegs : List String → Except PyErr String
  | [] => .ok ""
  | [_] => .error .indexError
  | x :: y :: rest =>
    match lSegs rest with
    | .error e => .error e
    | .ok s => .ok (" L " ++ x ++ " " ++ y ++ s)

/-- The segment string the loop builds when every token has a partner. -/
def segStr : List String → String
  | x :: y :: rest => " L " ++ x ++ " " ++ y ++ segStr rest
  | _ => ""

/-- The `line` branch: raw attribute text interpolated into
`M x1 y1 L x2 y2`, each coordinate defaulting to `'0'`. -/
def lineDatum (ad : List (String × String)) : String :=
  "M " ++ dictGet ad "x1" "0" ++ " " ++ dictGet ad "y1" "0" ++
  " L " ++ dictGet ad "x2" "0" ++ " " ++ dictGet ad "y2" "0"

/-- Builds the datum of a `polyline`/`polygon` from the first two tokens
and the remaining token list: the `M` move, the pair-loop segments, and the
closing `" Z"` when `closeZ` is set (the loop's error propagates before the
`Z` is appended, as in the source). -/
def polyBuild (closeZ : Bool) (p0 p1 : String) (rest : List String) :
    Except PyErr (Option String) :=
  match lSegs rest with
  | .error e => .error e
  | .ok segs =>
    .ok (some ("M " ++ p0 ++ " " ++ p1 ++ segs ++ (if closeZ then " Z" else "")))

/-- The `polyline`/`polygon` branches (`closeZ` selects the trailing
`" Z"`): skip when the points attribute is empty or yields fewer than two
tokens, otherwise `M` to the first pair and the pair loop. -/
def polyShape (closeZ : Bool) (ad : List (String × String)) :
    Except PyErr (Option String) :=
  let points := dictGet ad "points" ""
  if points = "" then .ok none
  else
    match cleanTokens points with
    | p0 :: p1 :: rest => polyBuild closeZ p0 p1 rest
    | _ => .ok none

/-- The rounded-rectangle path of the `rect` branch when a corner radius is
nonzero. -/
def roundedRect (x y w h rx ry : PyF) : String :=
  "M " ++ pyStr (pyAdd x rx) ++ "," ++ pyStr y ++
  " L " ++ pyStr (pySub (pyAdd x w) rx) ++ "," ++ pyStr y ++
  " A " ++ pyStr rx ++ "," ++ pyStr ry ++ " 0 0 1 " ++ pyStr (pyAdd x w) ++ "," ++ pyStr (pyAdd y ry) ++
  " L " ++ pyStr (pyAdd x w) ++ "," ++ pyStr (pySub (pyAdd y h) ry) ++
  " A " ++ pyStr rx ++ "," ++ pyStr ry ++ " 0 0 1 " ++ pyStr (pySub (pyAdd x w) rx) ++ "," ++ pyStr (pyAdd y h) ++
  " L " ++ pyStr (pyAdd x rx) ++ "," ++ pyStr (pyAdd y h) ++
  " A " ++ pyStr rx ++ "," ++ pyStr ry ++ " 0 0 1 " ++ pyStr x ++ "," ++ pyStr (pySub (pyAdd y h) ry) ++
  " L " ++ pyStr x ++ "," ++ pyStr (pyAdd y ry) ++
  " A " ++ pyStr rx ++ "," ++ pyStr ry ++ " 0 0 1 " ++ pyStr (pyAdd x rx) ++ "," ++ pyStr y ++
  " Z"

/-- The `rect` branch: six attributes parsed as floats (default `'0'`),
`ValueError` if any fails; the plain closed rectangle when both radii are
zero, the rounded rectangle otherwise. -/
def rectShape (ad : List (String × String)) : Except PyErr (Option String) :=
  match parseFloat (dictGet ad "x" "0"), parseFloat (dictGet ad "y" "0"),
        parseFloat (dictGet ad "width" "0"), parseFloat (dictGet ad "height" "0"),
        parseFloat (dictGet ad "rx" "0"), parseFloat (dictGet ad "ry" "0") with
  | some x, some y, some w, some h, some rx, some ry =>
    if pyIsZero rx && pyIsZero ry then
      .ok (some ("M " ++ pyStr x ++ " " ++ pyStr y ++ " h " ++ pyStr w ++
                 " v " ++ pyStr h ++ " h " ++ pyStr (pyNeg w) ++ " Z"))
    else .ok (some (roundedRect x y w h rx ry))
  | _, _, _, _, _, _ => .error .valueError

/-- The `circle` branch: three attributes parsed as floats (default `'0'`),
`ValueError` if any fails; the two-arc full circle otherwise. -/
def circleShape (ad : List (String × String)) : Except PyErr (Option String) :=
  match parseFloat (dictGet ad "cx" "0"), parseFloat (dictGet ad "cy" "0"),
        parseFloat (dictGet ad "r" "0") with
  | some cx, some cy, some r =>
    .ok (some ("M " ++ pyStr (pySub cx r) ++ "," ++ pyStr cy ++
               " A " ++ pyStr r ++ "," ++ pyStr r ++ " 0 1,0 " ++ pyStr (pyAdd cx r) ++ "," ++ pyStr cy ++
               " A " ++ pyStr r ++ "," ++ pyStr r ++ " 0 1,0 " ++ pyStr (pySub cx r) ++ "," ++ pyStr cy))
  | _, _, _ => .error .valueError

/-- The body of the tag loop of `parse_svg_content`: dispatch on the tag
name; `path` passes its `d` attribute through verbatim (defaulting to the
empty string), unrecognized tags are ignored. -/
def shapeToPath (tag attrStr : String) : Except PyErr (Option String) :=
  let ad := findAttrs attrStr
  if tag = "path" then .ok (some (dictGet ad "d" ""))
  else if tag = "line" then .ok (some (lineDatum ad))
  else if tag = "polyline" then polyShape false ad
  else if tag = "polygon" then polyShape true ad
  else if tag = "rect" then rectShape ad
  else if tag = "circle" then circleShape ad
  else .ok none

/-- Folds the tag loop over the extracted tags, accumulating the path data
in order; the first raised error aborts the call. -/
def convTags : List (String × String) → List String → Except PyErr (List String)
  | [], acc => .ok acc
  | t :: rest, acc =>
    match shapeToPath t.1 t.2 with
    | .error e => .error e
    | .ok none => convTags rest acc
    | .ok (some d) => convTags rest (acc ++ [d])

/-- The tags `parse_svg_content` iterates over: none when the `<svg>`
wrapper search fails, otherwise the tags of the inner content. -/
def svgTags (svg : String) : List (String × String) :=
  match svgInner svg.data with
  | none => []
  | some content => findTags content

/-- `parse_svg_content` from the source: the ordered list of path-data
strings of one SVG fragment, or the error that aborted the conversion. -/
def parse_svg_content (svg : String) : Except PyErr (List String) :=
  convTags (svgTags svg) []

/-- Fueled scan of `s.replace(pat, '')` (Python replaces every
non-overlapping occurrence left to right); used with `pat = 'IconType::'`. -/
def removeAllF (pat : List Char) : Nat → List Char → List Char
  | 0, l => l
  | _ + 1, [] => []
  | n + 1, c :: rest =>
    if startsWith pat (c :: rest) && !pat.isEmpty then
      removeAllF pat n ((c :: rest).drop pat.length)
    else c :: removeAllF pat n rest

/-- `name.replace('IconType::', '')`. -/
def stripIconType (name : String) : String :=
  ⟨removeAllF "IconType::".data (name.data.length + 1) name.data⟩

/-- One `<path .../>` element of the output document, as formatted by the
f-string in `generate_xml`. -/
def pathElement (p : String) : String :=
  "\n    <path\n        android:pathData=\"" ++ p ++
  "\"\n        android:strokeColor=\"#FFFFFF\"\n        android:strokeWidth=\"2\"\n        android:strokeLineCap=\"round\"\n        android:strokeLineJoin=\"round\" />"

/-- `generate_xml` from the source: the output filename and the full
vector-drawable document text. -/
def generate_xml (name : String) (paths : List String) : String × String :=
  let filename := "ic_" ++ to_snake_case (stripIconType name) ++ ".xml"
  let pathElements := String.join (paths.map pathElement)
  let xml :=
    "<vector xmlns:android=\"http://schemas.android.com/apk/res/android\"\n    android:width=\"24dp\"\n    android:height=\"24dp\"\n    android:viewportWidth=\"24.0\"\n    android:viewportHeight=\"24.0\"\n    android:tint=\"?attr/colorControlNormal\">\n    "
    ++ pathElements ++ "\n</vector>"
  (filename, xml)

/-- Attempts to match
`(IconType::\w+)\s*=>\s*{\s*r#"(.*?)"#` (with DOTALL) at the head of `l`:
the literal prefix, a nonempty word run, whitespace-separated `=>`, `{` and
`r#"`, then the lazy SVG body up to the first `"#`. -/
def tryIconDef (l : List Char) : Option (String × String × List Char) :=
  if startsWith "IconType::".data l then
    let sW := spanP wordB (l.drop 10)
    if sW.1.isEmpty then none
    else
      match sW.2.dropWhile wsB with
      | '=' :: '>' :: r3 =>
        match r3.dropWhile wsB with
        | '{' :: r5 =>
          match r5.dropWhile wsB with
          | 'r' :: '#' :: '"' :: r7 =>
            match firstSplit ['"', '#'] r7 with
            | some (svg, rest) => some (⟨"IconType::".data ++ sW.1⟩, ⟨svg⟩, rest)
            | none => none
          | _ => none
        | _ => none
      | _ => none
  else none

/-- Fueled scan of the top-level
`re.findall(r'(IconType::\w+)\s*=>\s*{\s*r#"(.*?)"#', icon_rs_content, re.DOTALL)`. -/
def findIconDefsF : Nat → List Char → List (String × String)
  | 0, _ => []
  | _ + 1, [] => []
  | n + 1, c :: rest =>
    match tryIconDef (c :: rest) with
    | some (name, svg, rest2) => (name, svg) :: findIconDefsF n rest2
    | none => findIconDefsF n rest

/-- All `(name, svg)` icon definitions extracted from the source text, in
order. -/
def findIconDefs (src : String) : List (String × String) :=
  findIconDefsF src.data.length src.data

/-- The fixed output directory of the script. -/
def outputDir : String := "android/app/src/main/res/drawable"

/-- One iteration of the main loop for one `(name, svg)` entry: `none` when
the icon's path list is empty (no file, no console line), otherwise the
`(filepath, contents)` write and the `Generated <filename>` console line. -/
def processEntry (name svg : String) :
    Except PyErr (Option ((String × String) × String)) :=
  match parse_svg_content svg with
  | .error e => .error e
  | .ok paths =>
    if paths.isEmpty then .ok none
    else
      let fc := generate_xml name paths
      .ok (some ((outputDir ++ "/" ++ fc.1, fc.2), "Generated " ++ fc.1))

/-- The main loop over all entries: the file writes and console lines that
happen, in order, and the error that aborted the run if one was raised. -/
def runMainF : List (String × String) →
    List (String × String) × List String × Option PyErr
  | [] => ([], [], none)
  | (name, svg) :: rest =>
    match processEntry name svg with
    | .error e => ([], [], some e)
    | .ok none => runMainF rest
    | .ok (some (w, line)) =>
      let r := runMainF rest
      (w :: r.1, line :: r.2.1, r.2.2)

/-- The whole pipeline as a pure function of the icon source text: extract
the definitions, then run the main loop. -/
def fullPipeline (src : String) :
    List (String × String) × List String × Option PyErr :=
  runMainF (findIconDefs src)

/-- A lowercase letter or an underscore: the alphabet of
already-snake-cased names. -/
def lowerUnd (c : Char) : Bool := lowerB c || c = '_'

/-- Substring test, used to state facts about the emitted document text. -/
def containsSub (pat l : List Char) : Bool := (firstSplit pat l).isSome

/-- Rebuilding a string from its character list is the identity. -/
theorem string_mk_data (s : String) : String.mk s.data = s := by
  cases s
  rfl

/-- Lowercasing never produces an ASCII uppercase letter. -/
theorem lowerChar_not_upper (c : Char) : upperB (lowerChar c) = false := by
  by_cases h : c ∈ upperChars
  · have hall : ∀ x ∈ upperChars, upperB (lowerChar x) = false := by decide
    exact hall c h
  · have hid : lowerChar c = c := by
      unfold lowerChar
      split
      all_goals first
        | rfl
        | exact absurd (by decide) h
    rw [hid]
    simpa [upperB] using h

/-- Lowercasing fixes characters that are not ASCII uppercase. -/
theorem lowerChar_id_of_not_upper (c : Char) (h : upperB c = false) :
    lowerChar c = c := by
  unfold lowerChar
  split
  all_goals first
    | rfl
    | exact absurd h (by decide)

/-- Every character of a lowercased list is non-uppercase. -/
theorem noUpper_map_lowerChar (l : List Char) :
    ∀ c ∈ l.map lowerChar, upperB c = false := by
  intro c hc
  rcases List.mem_map.1 hc with ⟨a, _, rfl⟩
  exact lowerChar_not_upper a

/-- The first `to_snake_case` substitution fixes inputs with no uppercase
letter, at any fuel. -/
theorem sub1F_id_of_no_upper :
    ∀ (n : Nat) (l : List Char), (∀ c ∈ l, upperB c = false) → sub1F n l = l := by
  intro n
  induction n with
  | zero => intro l _; rfl
  | succ n ih =>
    intro l hl
    rcases l with _ | ⟨c1, _ | ⟨c2, _ | ⟨c3, rest2⟩⟩⟩
    · rfl
    · simp only [sub1F]
      rw [ih [] (by simp)]
    · simp only [sub1F]
      rw [ih [c2] (fun c hc => hl c (List.mem_cons_of_mem _ hc))]
    · have h2 : upperB c2 = false := hl c2 (by simp)
      simp only [sub1F]
      rw [if_neg (by simp [h2])]
      rw [ih (c2 :: c3 :: rest2) (fun c hc => hl c (List.mem_cons_of_mem _ hc))]

/-- The second `to_snake_case` substitution fixes inputs with no uppercase
letter, at any fuel. -/
theorem sub2F_id_of_no_upper :
    ∀ (n : Nat) (l : List Char), (∀ c ∈ l, upperB c = false) → sub2F n l = l := by
  intro n
  induction n with
  | zero => intro l _; rfl
  | succ n ih =>
    intro l hl
    rcases l with _ | ⟨c1, _ | ⟨c2, rest⟩⟩
    · rfl
    · rfl
    · have h2 : upperB c2 = false := hl c2 (by simp)
      simp only [sub2F]
      rw [if_neg (by simp [h2])]
      rw [ih (c2 :: rest) (fun c hc => hl c (List.mem_cons_of_mem _ hc))]

/-- Lowercasing fixes lists with no uppercase letter. -/
theorem map_lowerChar_id_of_no_upper (l : List Char)
    (h : ∀ c ∈ l, upperB c = false) : l.map lowerChar = l := by
  induction l with
  | nil => rfl
  | cons c rest ih =>
    simp only [List.map_cons, lowerChar_id_of_not_upper c (h c (by simp)),
      ih (fun x hx => h x (by simp [hx]))]

/-- The character list of a `to_snake_case` result. -/
theorem to_snake_case_data (s : String) :
    (to_snake_case s).data =
      (sub2F (sub1F s.data.length s.data).length
        (sub1F s.data.length s.data)).map lowerChar := rfl

/-- Claim C5: the Name Normalizer `to_snake_case` is idempotent — applying
it to its own output returns that output unchanged — and any string made of
lowercase letters and underscores maps to itself. -/
theorem to_snake_case_idempotent :
    (∀ s : String, to_snake_case (to_snake_case s) = to_snake_case s) ∧
    (∀ s : String, (∀ c ∈ s.data, lowerUnd c = true) → to_snake_case s = s) := by
  have key : ∀ s : String, (∀ c ∈ s.data, upperB c = false) → to_snake_case s = s := by
    intro s hs
    have h1 : sub1F s.data.length s.data = s.data := sub1F_id_of_no_upper _ _ hs
    have : to_snake_case s =
        ⟨(sub2F (sub1F s.data.length s.data).length
          (sub1F s.data.length s.data)).map lowerChar⟩ := rfl
    rw [this, h1, sub2F_id_of_no_upper _ _ hs, map_lowerChar_id_of_no_upper _ hs,
      string_mk_data]
  constructor
  · intro s
    apply key
    rw [to_snake_case_data]
    exact noUpper_map_lowerChar _
  · intro s hs
    apply key
    intro c hc
    have h := hs c hc
    simp only [lowerUnd, Bool.or_eq_true, decide_eq_true_eq] at h
    rcases h with h | rfl
    · have hmem : c ∈ lowerLetters := by
        simpa [lowerB] using h
      have hall : ∀ x ∈ lowerLetters, upperB x = false := by decide
      exact hall c hmem
    · decide

/-- witness for C5: a concrete already-snake-cased name is fixed, and
idempotence holds at a concrete PascalCase name. -/
theorem to_snake_case_idempotent_witness :
    to_snake_case "device_unknown" = "device_unknown" ∧
    to_snake_case (to_snake_case "DeviceUnknown") = to_snake_case "DeviceUnknown" :=
  ⟨to_snake_case_idempotent.2 "device_unknown" (by decide),
   to_snake_case_idempotent.1 "DeviceUnknown"⟩

/-- Claim C6: the pipeline is a pure function of the icon source text, so
two runs on equal source text produce identical write lists (same
filenames, byte-identical contents), console lines and final status. -/
theorem pipeline_deterministic (src1 src2 : String) (h : src1 = src2) :
    fullPipeline src1 = fullPipeline src2 := by
  rw [h]

/-- witness for C6 at a concrete source text. -/
theorem pipeline_deterministic_witness :
    ("IconType::A => \x7b r#\"<svg><rect x=\"1\"/></svg>\"# \x7d" : String) =
      "IconType::A => \x7b r#\"<svg><rect x=\"1\"/></svg>\"# \x7d" ∧
    fullPipeline "IconType::A => \x7b r#\"<svg><rect x=\"1\"/></svg>\"# \x7d" =
      fullPipeline "IconType::A => \x7b r#\"<svg><rect x=\"1\"/></svg>\"# \x7d" :=
  ⟨rfl, pipeline_deterministic _ _ rfl⟩

/-- Claim C7: a `line` tag emits `M x1 y1 L x2 y2` from the raw attribute
text with absent coordinates defaulting to `0`; in particular the concrete
line with `x1=1, y1=2, x2=3, y2=4` yields exactly `"M 1 2 L 3 4"`. -/
theorem line_datum_exact :
    parse_svg_content "<svg><line x1=\"1\" y1=\"2\" x2=\"3\" y2=\"4\"/></svg>" =
      Except.ok ["M 1 2 L 3 4"] ∧
    ∀ a : String, shapeToPath "line" a =
      Except.ok (some ("M " ++ dictGet (findAttrs a) "x1" "0" ++ " " ++
        dictGet (findAttrs a) "y1" "0" ++ " L " ++
        dictGet (findAttrs a) "x2" "0" ++ " " ++
        dictGet (findAttrs a) "y2" "0")) :=
  ⟨rfl, fun _ => rfl⟩

/-- A key absent from the attribute list yields the default. -/
theorem dictGet_eq_default_of_not_mem :
    ∀ (l : List (String × String)) (k dflt : String),
      (∀ p ∈ l, p.1 ≠ k) → dictGet l k dflt = dflt := by
  intro l
  induction l with
  | nil => intro k dflt _; rfl
  | cons p rest ih =>
    intro k dflt h
    have hp : p.1 ≠ k := h p (by simp)
    show dictGet rest k (if p.1 = k then p.2 else dflt) = dflt
    rw [if_neg hp]
    exact ih k dflt (fun q hq => h q (List.mem_cons_of_mem _ hq))

/-- The pair loop succeeds on an even token list, producing the segment
string. -/
theorem lSegs_even : ∀ l : List String, l.length % 2 = 0 → lSegs l = .ok (segStr l)
  | [], _ => rfl
  | [x], h => by simp at h
  | x :: y :: rest, h => by
    have hr : rest.length % 2 = 0 := by
      simp only [List.length_cons] at h
      omega
    simp only [lSegs, segStr, lSegs_even rest hr]

/-- The pair loop raises `IndexError` on an odd token list. -/
theorem lSegs_odd : ∀ l : List String, l.length % 2 = 1 → lSegs l = .error .indexError
  | [], h => by simp at h
  | [_], _ => rfl
  | x :: y :: rest, h => by
    have hr : rest.length % 2 = 1 := by
      simp only [List.length_cons] at h
      omega
    simp only [lSegs, lSegs_odd rest hr]

/-- If some tag in the list raises, the whole fold raises (with the first
error encountered). -/
theorem convTags_error_of_mem :
    ∀ (pre : List (String × String)) (t : String × String)
      (post : List (String × String)) (acc : List String) (e : PyErr),
      shapeToPath t.1 t.2 = .error e →
      ∃ e2, convTags (pre ++ t :: post) acc = .error e2 := by
  intro pre
  induction pre with
  | nil =>
    intro t post acc e h
    exact ⟨e, by simp only [List.nil_append, convTags, h]⟩
  | cons p rest ih =>
    intro t post acc e h
    show ∃ e2, convTags (p :: (rest ++ t :: post)) acc = .error e2
    cases hp : shapeToPath p.1 p.2 with
    | error e3 => exact ⟨e3, by simp only [convTags, hp]⟩
    | ok o =>
      cases o with
      | none =>
        rcases ih t post acc e h with ⟨e2, h2⟩
        exact ⟨e2, by simp only [convTags, hp, h2]⟩
      | some d =>
        rcases ih t post (acc ++ [d]) e h with ⟨e2, h2⟩
        exact ⟨e2, by simp only [convTags, hp, h2]⟩

/-- counterexample to claim C1: for the rect with `x=2, y=3, width=14,
height=20, rx=0, ry=0` the converter's sole path datum is the
float-formatted `"M 2.0 3.0 h 14.0 v 20.0 h -14.0 Z"` (Python interpolates
`float` values, printing `2` as `2.0`), which differs from the claimed
plain-integer string `"M 2 3 h 14 v 20 h -14 Z"`. -/
theorem rect_plain_integer_datum_refuted :
    parse_svg_content
        "<svg><rect x=\"2\" y=\"3\" width=\"14\" height=\"20\" rx=\"0\" ry=\"0\"/></svg>" =
      Except.ok ["M 2.0 3.0 h 14.0 v 20.0 h -14.0 Z"] ∧
    ¬ parse_svg_content
        "<svg><rect x=\"2\" y=\"3\" width=\"14\" height=\"20\" rx=\"0\" ry=\"0\"/></svg>" =
      Except.ok ["M 2 3 h 14 v 20 h -14 Z"] := by
  constructor
  · rfl
  · intro h
    rw [show parse_svg_content
        "<svg><rect x=\"2\" y=\"3\" width=\"14\" height=\"20\" rx=\"0\" ry=\"0\"/></svg>" =
      Except.ok ["M 2.0 3.0 h 14.0 v 20.0 h -14.0 Z"] from rfl] at h
    injection h with h1
    injection h1 with h2 h3
    exact absurd h2 (by decide)

/-- Claim C1 as amended: for the rect tag with attributes `x=2, y=3,
width=14, height=20, rx=0, ry=0` the converter appends the path datum
exactly equal to `"M 2.0 3.0 h 14.0 v 20.0 h -14.0 Z"` — the relative
move/line closed rectangle with Python float formatting of each number. -/
theorem rect_zero_radius_datum :
    parse_svg_content
        "<svg><rect x=\"2\" y=\"3\" width=\"14\" height=\"20\" rx=\"0\" ry=\"0\"/></svg>" =
      Except.ok ["M 2.0 3.0 h 14.0 v 20.0 h -14.0 Z"] := rfl

/-- Claim C3: a `circle` tag whose `cx`, `cy`, `r` attributes parse as
floats yields exactly one path datum: a move to `(cx-r, cy)` followed by
two arcs, both with radii `(r, r)`, x-rotation `0`, large-arc flag `1` and
sweep flag `0`, with endpoints `(cx+r, cy)` and `(cx-r, cy)`, so the path
ends at its start point. -/
theorem circle_two_arc_datum (a : String) (cx cy r : PyF)
    (hcx : parseFloat (dictGet (findAttrs a) "cx" "0") = some cx)
    (hcy : parseFloat (dictGet (findAttrs a) "cy" "0") = some cy)
    (hr : parseFloat (dictGet (findAttrs a) "r" "0") = some r) :
    shapeToPath "circle" a =
      Except.ok (some ("M " ++ pyStr (pySub cx r) ++ "," ++ pyStr cy ++
        " A " ++ pyStr r ++ "," ++ pyStr r ++ " 0 1,0 " ++
        pyStr (pyAdd cx r) ++ "," ++ pyStr cy ++
        " A " ++ pyStr r ++ "," ++ pyStr r ++ " 0 1,0 " ++
        pyStr (pySub cx r) ++ "," ++ pyStr cy)) := by
  have hs : shapeToPath "circle" a = circleShape (findAttrs a) := rfl
  rw [hs]
  unfold circleShape
  rw [hcx, hcy, hr]

/-- witness for C3 at the spec's example `circle(cx=12, cy=12, r=10)`. -/
theorem circle_two_arc_datum_witness :
    parseFloat (dictGet (findAttrs "cx=\"12\" cy=\"12\" r=\"10\"") "cx" "0") =
      some (PyF.fin ⟨12, 0⟩) ∧
    shapeToPath "circle" "cx=\"12\" cy=\"12\" r=\"10\"" =
      Except.ok (some "M 2.0,12.0 A 10.0,10.0 0 1,0 22.0,12.0 A 10.0,10.0 0 1,0 2.0,12.0") := by
  refine ⟨rfl, ?_⟩
  have h := circle_two_arc_datum "cx=\"12\" cy=\"12\" r=\"10\""
    (PyF.fin ⟨12, 0⟩) (PyF.fin ⟨12, 0⟩) (PyF.fin ⟨10, 0⟩) rfl rfl rfl
  exact h.trans (by rfl)

/-- Claim C4: an icon whose converted path list is empty is skipped by the
main loop — no `(filepath, contents)` write and no console line are
produced for it. -/
theorem empty_paths_skipped :
    (∀ name svg : String, parse_svg_content svg = Except.ok [] →
      processEntry name svg = Except.ok none) ∧
    (∀ (name svg : String) (rest : List (String × String)),
      parse_svg_content svg = Except.ok [] →
      runMainF ((name, svg) :: rest) = runMainF rest) := by
  constructor
  · intro name svg h
    simp only [processEntry, h, List.isEmpty_nil, if_pos]
  · intro name svg rest h
    simp only [runMainF, processEntry, h, List.isEmpty_nil, if_pos]

/-- witness for C4: the empty markup has no `<svg>` match, so its path list
is empty and the entry is skipped. -/
theorem empty_paths_skipped_witness :
    parse_svg_content "" = Except.ok [] ∧
    processEntry "IconType::X" "" = Except.ok none ∧
    runMainF [("IconType::X", "")] = runMainF [] :=
  ⟨rfl, empty_paths_skipped.1 "IconType::X" "" rfl,
   empty_paths_skipped.2 "IconType::X" "" [] rfl⟩

/-- Claim C2: a `rect` or `circle` tag whose effective value for one of its
numeric attributes does not parse as a float makes the tag conversion raise
`ValueError`, and any tag raising `ValueError` makes the whole
`parse_svg_content` call fail — the icon is never silently skipped. -/
theorem nonnumeric_attr_fatal :
    (∀ tag a k : String,
      ((tag = "rect" ∧ k ∈ (["x", "y", "width", "height", "rx", "ry"] : List String)) ∨
       (tag = "circle" ∧ k ∈ (["cx", "cy", "r"] : List String))) →
      parseFloat (dictGet (findAttrs a) k "0") = none →
      shapeToPath tag a = Except.error PyErr.valueError) ∧
    (∀ (s : String) (pre post : List (String × String)) (t : String × String),
      svgTags s = pre ++ t :: post →
      shapeToPath t.1 t.2 = Except.error PyErr.valueError →
      ∃ e, parse_svg_content s = Except.error e) := by
  constructor
  · intro tag a k hk hp
    rcases hk with ⟨rfl, hk⟩ | ⟨rfl, hk⟩
    · have hs : shapeToPath "rect" a = rectShape (findAttrs a) := rfl
      rw [hs]
      unfold rectShape
      fin_cases hk
      all_goals rw [hp]
      all_goals split
      all_goals simp_all
    · have hs : shapeToPath "circle" a = circleShape (findAttrs a) := rfl
      rw [hs]
      unfold circleShape
      fin_cases hk
      all_goals rw [hp]
      all_goals split
      all_goals simp_all
  · intro s pre post t hsplit herr
    have : parse_svg_content s = convTags (svgTags s) [] := rfl
    rw [this, hsplit]
    exact convTags_error_of_mem pre t post [] PyErr.valueError herr

/-- witness for C2 at the spec's example `width="abc"`. -/
theorem nonnumeric_attr_fatal_witness :
    parseFloat (dictGet (findAttrs "width=\"abc\"") "width" "0") = none ∧
    shapeToPath "rect" "width=\"abc\"" = Except.error PyErr.valueError ∧
    ∃ e, parse_svg_content "<svg><rect width=\"abc\"/></svg>" = Except.error e := by
  have h1 : shapeToPath "rect" "width=\"abc\"" = Except.error PyErr.valueError :=
    nonnumeric_attr_fatal.1 "rect" "width=\"abc\"" "width"
      (Or.inl ⟨rfl, by decide⟩) rfl
  exact ⟨rfl, h1,
    nonnumeric_attr_fatal.2 "<svg><rect width=\"abc\"/></svg>" [] []
      ("rect", "width=\"abc\"") rfl h1⟩

/-- A nonempty token list rules out an empty points attribute. -/
theorem points_ne_empty_of_tokens {ad : List (String × String)}
    {p0 p1 : String} {rest : List String}
    (hclean : cleanTokens (dictGet ad "points" "") = p0 :: p1 :: rest) :
    dictGet ad "points" "" ≠ "" := by
  intro h0
  rw [h0] at hclean
  rw [show cleanTokens "" = ([] : List String) from rfl] at hclean
  exact List.noConfusion hclean

/-- The `polyline`/`polygon` branch on an even token count of at least two:
the datum is emitted. -/
theorem polyShape_even (z : Bool) (ad : List (String × String))
    (p0 p1 : String) (rest : List String)
    (hclean : cleanTokens (dictGet ad "points" "") = p0 :: p1 :: rest)
    (heven : rest.length % 2 = 0) :
    polyShape z ad = Except.ok (some ("M " ++ p0 ++ " " ++ p1 ++ segStr rest ++
      (if z then " Z" else ""))) := by
  simp only [polyShape]
  rw [if_neg (points_ne_empty_of_tokens hclean), hclean]
  have h2 : polyBuild z p0 p1 rest = Except.ok (some ("M " ++ p0 ++ " " ++ p1 ++
      segStr rest ++ (if z then " Z" else ""))) := by
    unfold polyBuild
    rw [lSegs_even rest heven]
  exact h2

/-- The `polyline`/`polygon` branch on an odd token count of at least
three: the pair loop raises `IndexError`. -/
theorem polyShape_odd (z : Bool) (ad : List (String × String))
    (p0 p1 : String) (rest : List String)
    (hclean : cleanTokens (dictGet ad "points" "") = p0 :: p1 :: rest)
    (hodd : rest.length % 2 = 1) :
    polyShape z ad = Except.error PyErr.indexError := by
  simp only [polyShape]
  rw [if_neg (points_ne_empty_of_tokens hclean), hclean]
  have h2 : polyBuild z p0 p1 rest = Except.error PyErr.indexError := by
    unfold polyBuild
    rw [lSegs_odd rest hodd]
  exact h2

/-- The `polyline`/`polygon` branch on fewer than two tokens: silent
omission. -/
theorem polyShape_short (z : Bool) (ad : List (String × String))
    (hlen : (cleanTokens (dictGet ad "points" "")).length < 2) :
    polyShape z ad = Except.ok none := by
  simp only [polyShape]
  by_cases h0 : dictGet ad "points" "" = ""
  · rw [if_pos h0]
  · rw [if_neg h0]
    rcases hcl : cleanTokens (dictGet ad "points" "") with _ | ⟨x, _ | ⟨y, r⟩⟩
    · rfl
    · rfl
    · rw [hcl] at hlen
      simp at hlen
      omega

/-- counterexample to claim C8: the polyline with `points="1 2 3"` has at
least two tokens, yet no datum is emitted for it — the conversion raises
`IndexError` instead. -/
theorem poly_two_token_emission_refuted :
    shapeToPath "polyline" "points=\"1 2 3\"" = Except.error PyErr.indexError ∧
    ¬ ∃ d, shapeToPath "polyline" "points=\"1 2 3\"" = Except.ok (some d) := by
  refine ⟨rfl, ?_⟩
  rintro ⟨d, hd⟩
  rw [show shapeToPath "polyline" "points=\"1 2 3\"" =
    Except.error PyErr.indexError from rfl] at hd
  exact Except.noConfusion hd

/-- Claim C8 as amended: fewer than two normalized tokens make a
`polyline`/`polygon` silently omit the shape (no datum, no error); with at
least two tokens and an even token count the emitted datum is an `M` to the
first pair followed by an `L` for each subsequent pair, with `" Z"`
appended for `polygon`.  (An odd count of at least three instead raises
`IndexError`; see the companion safety theorem for C9.) -/
theorem poly_points_amended :
    (∀ tag a : String, (tag = "polyline" ∨ tag = "polygon") →
      (cleanTokens (dictGet (findAttrs a) "points" "")).length < 2 →
      shapeToPath tag a = Except.ok none) ∧
    (∀ (tag a p0 p1 : String) (rest : List String),
      (tag = "polyline" ∨ tag = "polygon") →
      cleanTokens (dictGet (findAttrs a) "points" "") = p0 :: p1 :: rest →
      rest.length % 2 = 0 →
      shapeToPath tag a = Except.ok (some ("M " ++ p0 ++ " " ++ p1 ++
        segStr rest ++ (if tag = "polygon" then " Z" else "")))) := by
  constructor
  · intro tag a htag hlen
    rcases htag with rfl | rfl
    · exact polyShape_short false (findAttrs a) hlen
    · exact polyShape_short true (findAttrs a) hlen
  · intro tag a p0 p1 rest htag hclean heven
    rcases htag with rfl | rfl
    · exact polyShape_even false (findAttrs a) p0 p1 rest hclean heven
    · exact polyShape_even true (findAttrs a) p0 p1 rest hclean heven

/-- witness for C8: a one-token polyline is silently omitted, and the
spec's polygon example emits its closed path. -/
theorem poly_points_amended_witness :
    (cleanTokens (dictGet (findAttrs "points=\"5\"") "points" "")).length < 2 ∧
    shapeToPath "polyline" "points=\"5\"" = Except.ok none ∧
    cleanTokens (dictGet (findAttrs "points=\"5 3 19 12 5 21 5 3\"") "points" "") =
      ["5", "3", "19", "12", "5", "21", "5", "3"] ∧
    shapeToPath "polygon" "points=\"5 3 19 12 5 21 5 3\"" =
      Except.ok (some "M 5 3 L 19 12 L 5 21 L 5 3 Z") := by
  refine ⟨by decide,
    poly_points_amended.1 "polyline" "points=\"5\"" (Or.inl rfl) (by decide),
    rfl, ?_⟩
  have h := poly_points_amended.2 "polygon" "points=\"5 3 19 12 5 21 5 3\""
    "5" "3" ["19", "12", "5", "21", "5", "3"] (Or.inr rfl) rfl (by decide)
  exact h.trans (by rfl)

/-- Claim C9: a `polyline` or `polygon` whose normalized points list has an
odd length of at least three makes `parse_svg_content` raise `IndexError`
(out-of-range `clean_points[i+1]`), aborting the run instead of silently
omitting the shape; concretely so for `points="1 2 3"`. -/
theorem poly_odd_index_error :
    (∀ (tag a p0 p1 : String) (rest : List String),
      (tag = "polyline" ∨ tag = "polygon") →
      cleanTokens (dictGet (findAttrs a) "points" "") = p0 :: p1 :: rest →
      rest.length % 2 = 1 →
      shapeToPath tag a = Except.error PyErr.indexError) ∧
    parse_svg_content "<svg><polyline points=\"1 2 3\"/></svg>" =
      Except.error PyErr.indexError := by
  constructor
  · intro tag a p0 p1 rest htag hclean hodd
    rcases htag with rfl | rfl
    · exact polyShape_odd false (findAttrs a) p0 p1 rest hclean hodd
    · exact polyShape_odd true (findAttrs a) p0 p1 rest hclean hodd
  · rfl

/-- witness for C9 at `points="1 2 3"`. -/
theorem poly_odd_index_error_witness :
    cleanTokens (dictGet (findAttrs "points=\"1 2 3\"") "points" "") =
      ["1", "2", "3"] ∧
    shapeToPath "polyline" "points=\"1 2 3\"" = Except.error PyErr.indexError :=
  ⟨rfl, poly_odd_index_error.1 "polyline" "points=\"1 2 3\"" "1" "2" ["3"]
    (Or.inl rfl) rfl (by decide)⟩

set_option maxRecDepth 8192 in
/-- Claim C10: a `path` tag with no `d` attribute appends the empty string
as its datum, so the icon's path list is nonempty and an output file is
still written, containing a path element with empty `android:pathData`. -/
theorem path_missing_d_empty_datum :
    (∀ a : String, (∀ p ∈ findAttrs a, p.1 ≠ "d") →
      shapeToPath "path" a = Except.ok (some "")) ∧
    processEntry "IconType::Test" "<svg><path /></svg>" =
      Except.ok (some (("android/app/src/main/res/drawable/ic_test.xml",
        "<vector xmlns:android=\"http://schemas.android.com/apk/res/android\"\n    android:width=\"24dp\"\n    android:height=\"24dp\"\n    android:viewportWidth=\"24.0\"\n    android:viewportHeight=\"24.0\"\n    android:tint=\"?attr/colorControlNormal\">\n    \n    <path\n        android:pathData=\"\"\n        android:strokeColor=\"#FFFFFF\"\n        android:strokeWidth=\"2\"\n        android:strokeLineCap=\"round\"\n        android:strokeLineJoin=\"round\" />\n</vector>"),
        "Generated ic_test.xml")) := by
  constructor
  · intro a h
    have hs : shapeToPath "path" a =
        Except.ok (some (dictGet (findAttrs a) "d" "")) := rfl
    rw [hs, dictGet_eq_default_of_not_mem _ _ _ h]
  · rfl

/-- witness for C10 at a path tag carrying only a stroke attribute. -/
theorem path_missing_d_empty_datum_witness :
    (∀ p ∈ findAttrs "stroke=\"c\"", p.1 ≠ "d") ∧
    shapeToPath "path" "stroke=\"c\"" = Except.ok (some "") :=
  ⟨by decide, path_missing_d_empty_datum.1 "stroke=\"c\"" (by decide)⟩
